import Mathlib

/-
  Shallow embedding of the Linera summer-school fungible-token application
  (src/state.rs, src/contract.rs, src/lib.rs), with theorems checking the
  specification claims against it.

  Owners and chain ids are opaque equality-comparable identities in the
  source; they are modelled as Nat.  Amount is a u128 with saturating
  addition and checked subtraction; it is modelled as Nat together with the
  explicit bound amountMax = 2^128 - 1.

  Stateful methods on the FungibleToken view become explicit state-passing
  functions.  A Rust method returning Result that aborts the transaction on
  error becomes a function into Except; an error value means the whole
  operation aborted, with every view change rolled back, so no state is
  carried on the error path.
-/

namespace Fungible

/-- Owners are opaque public-key-derived identities; only equality is used. -/
abbrev Owner := Nat

/-- Chain identities; only equality is used. -/
abbrev ChainId := Nat

/-- Amounts are u128 values in the source. -/
abbrev Amount := Nat

/-- The largest representable u128 value, 2^128 - 1. -/
def amountMax : Nat := 2 ^ 128 - 1

/-- Rust u128 saturating_add: clamps at the maximum representable value. -/
def Amount.saturatingAdd (a b : Amount) : Amount :=
  if a + b ≤ amountMax then a + b else amountMax

/-- Rust u128 checked_sub (try_sub_assign): fails instead of going negative. -/
def Amount.trySub (a b : Amount) : Option Amount :=
  if b ≤ a then some (a - b) else none

/-- state.rs: the InsufficientBalanceError unit struct. -/
inductive InsufficientBalanceError
  | mk
deriving DecidableEq

/-- lib.rs: Account is a destination descriptor (chain_id, owner). -/
structure Account where
  chain_id : ChainId
  owner : Owner
deriving DecidableEq

/-- lib.rs: the single operation variant Transfer { owner, amount, target_account }. -/
inductive Operation
  | Transfer (owner : Owner) (amount : Amount) (target_account : Account)
deriving DecidableEq

/-- lib.rs: the single message variant Credit { amount, owner }. -/
inductive Message
  | Credit (amount : Amount) (owner : Owner)
deriving DecidableEq

/-- contract.rs: the contract error enum.  BcsError and JsonError carry
deserialization payloads in the source that the modelled code never
constructs, so the payloads are dropped here. -/
inductive Error
  | BcsError
  | JsonError
  | IncorrectAuthentication
  | InsufficientBalance (e : InsufficientBalanceError)
  | SessionsNotSupported
deriving DecidableEq

/-- linera_sdk ExecutionResult: the list of outgoing messages scheduled by an
operation or message execution, each addressed to a destination chain. -/
structure ExecutionResult where
  messages : List (ChainId × Message)
deriving DecidableEq

/-- ExecutionResult::default(): no outgoing messages. -/
def ExecutionResult.default : ExecutionResult := ⟨[]⟩

/-- ExecutionResult::with_message: schedule one more message for a chain. -/
def ExecutionResult.with_message (r : ExecutionResult) (chain : ChainId)
    (m : Message) : ExecutionResult :=
  ⟨r.messages ++ [(chain, m)]⟩

/-- linera_sdk OperationContext, with the fields the contract and its tests
use: the executing chain, the authenticated signer, block height, index. -/
structure OperationContext where
  chain_id : ChainId
  authenticated_signer : Option Owner
  height : Nat
  index : Nat

/-- linera_sdk MessageContext; the contract ignores every field. -/
structure MessageContext where
  chain_id : ChainId
  authenticated_signer : Option Owner

/-- linera_sdk CalleeContext; the contract ignores every field. -/
structure CalleeContext where
  chain_id : ChainId
  authenticated_signer : Option Owner

/-- linera_sdk SessionId; opaque here. -/
abbrev SessionId := Nat

/-- linera_sdk ApplicationCallResult with unit value and session state, as
instantiated by the FungibleAbi (Response = (), SessionState = ()). -/
structure ApplicationCallResult where
  value : Unit
  execution_result : ExecutionResult
  create_sessions : List Unit
deriving DecidableEq

/-- ApplicationCallResult::default(). -/
def ApplicationCallResult.default : ApplicationCallResult :=
  ⟨(), ExecutionResult.default, []⟩

/-- linera_sdk SessionCallResult for the FungibleAbi instantiation. -/
structure SessionCallResult where
  inner : ApplicationCallResult
  new_state : Option Unit
deriving DecidableEq

/-- state.rs: the FungibleToken root view.  Its single MapView
accounts : Owner -> Amount is modelled as a partial map; absence of a key
is distinct from a stored zero, exactly as in the key-value store. -/
structure FungibleToken where
  accounts : Owner → Option Amount

/-- MapView::insert: set the value stored under a key. -/
def FungibleToken.insertAccount (s : FungibleToken) (o : Owner) (a : Amount) :
    FungibleToken :=
  ⟨fun o2 => if o2 = o then some a else s.accounts o2⟩

/-- state.rs method that bootstraps the ledger (named after the source
method on accounts): unconditionally insert the amount under the owner. -/
def FungibleToken.init_accounts (s : FungibleToken) (owner : Owner)
    (amount : Amount) : FungibleToken :=
  s.insertAccount owner amount

/-- state.rs balance: stored value, or Amount::default() = 0 if absent. -/
def FungibleToken.balance (s : FungibleToken) (account : Owner) : Amount :=
  (s.accounts account).getD 0

/-- state.rs credit: read the balance, saturating_add_assign the amount,
insert the result. -/
def FungibleToken.credit (s : FungibleToken) (account : Owner)
    (amount : Amount) : FungibleToken :=
  s.insertAccount account (Amount.saturatingAdd (s.balance account) amount)

/-- state.rs debit: read the balance, try_sub_assign the amount; on
arithmetic failure return InsufficientBalanceError before any insert; on
success insert the reduced value. -/
def FungibleToken.debit (s : FungibleToken) (account : Owner)
    (amount : Amount) : Except InsufficientBalanceError FungibleToken :=
  match Amount.trySub (s.balance account) amount with
  | none => .error .mk
  | some b => .ok (s.insertAccount account b)

/-- contract.rs check_account_authentication: succeed exactly when the
authenticated signer is present and equals the claimed owner. -/
def check_account_authentication (authenticated_signed : Option Owner)
    (owner : Owner) : Except Error Unit :=
  if authenticated_signed = some owner then .ok () else
    .error .IncorrectAuthentication

/-- contract.rs finish_transfer_to_account: credit locally when the target
chain is the executing chain (system_api::current_chain_id, passed here as
the currentChainId argument), otherwise schedule one Credit message for the
target chain. -/
def finish_transfer_to_account (currentChainId : ChainId) (s : FungibleToken)
    (amount : Amount) (account : Account) : FungibleToken × ExecutionResult :=
  if account.chain_id = currentChainId then
    (s.credit account.owner amount, ExecutionResult.default)
  else
    (s, ExecutionResult.default.with_message account.chain_id
      (.Credit amount account.owner))

/-- contract.rs contract-instantiation entry point (a Lean keyword forces
the rename to instantiate): if the instantiating transaction has an
authenticated signer, give that signer the initial amount; either way
succeed with the default result. -/
def instantiate (ctx : OperationContext) (argument : Amount)
    (s : FungibleToken) : Except Error (FungibleToken × ExecutionResult) :=
  match ctx.authenticated_signer with
  | some owner => .ok (s.init_accounts owner argument,
      ExecutionResult.default)
  | none => .ok (s, ExecutionResult.default)

/-- contract.rs execute_operation on Transfer: authentication check, then
debit (its error converted to Error.InsufficientBalance by the question-mark
operator), then finish_transfer_to_account. -/
def execute_operation (currentChainId : ChainId) (ctx : OperationContext)
    (s : FungibleToken) (op : Operation) :
    Except Error (FungibleToken × ExecutionResult) :=
  match op with
  | .Transfer owner amount target_account =>
    match check_account_authentication ctx.authenticated_signer owner with
    | .error e => .error e
    | .ok () =>
      match s.debit owner amount with
      | .error e => .error (.InsufficientBalance e)
      | .ok s1 => .ok (finish_transfer_to_account currentChainId s1 amount
          target_account)

/-- contract.rs execute_message on Credit: credit unconditionally and
succeed with the default result. -/
def execute_message (ctx : MessageContext) (s : FungibleToken)
    (m : Message) : Except Error (FungibleToken × ExecutionResult) :=
  match m with
  | .Credit amount owner => .ok (s.credit owner amount,
      ExecutionResult.default)

/-- contract.rs handle_application_call: returns the default successful
result, ignoring the call entirely. -/
def handle_application_call (ctx : CalleeContext) (s : FungibleToken)
    (call : Unit) (forwarded_sessions : List SessionId) :
    Except Error ApplicationCallResult :=
  .ok ApplicationCallResult.default

/-- contract.rs handle_session_call: always fails with SessionsNotSupported. -/
def handle_session_call (ctx : CalleeContext) (s : FungibleToken)
    (session : Unit) (call : Unit) (forwarded_sessions : List SessionId) :
    Except Error SessionCallResult :=
  .error .SessionsNotSupported

/-- The empty ledger, as created at contract instantiation. -/
def emptyToken : FungibleToken := ⟨fun _ => none⟩

/-- A ledger holding a single account. -/
def singleToken (o : Owner) (a : Amount) : FungibleToken :=
  ⟨fun o2 => if o2 = o then some a else none⟩

/-- Extract the post-state of a successful execution (empty ledger on the
error path, which the scenarios below never take). -/
def okState (r : Except Error (FungibleToken × ExecutionResult)) :
    FungibleToken :=
  match r with
  | .ok (s, _) => s
  | .error _ => emptyToken

/-- Extract the outgoing messages of a successful execution. -/
def okMessages (r : Except Error (FungibleToken × ExecutionResult)) :
    List (ChainId × Message) :=
  match r with
  | .ok (_, res) => res.messages
  | .error _ => []

/-- Reading right after inserting under the same key yields the inserted value. -/
theorem balance_insertAccount_self (s : FungibleToken) (o : Owner) (a : Amount) :
    (s.insertAccount o a).balance o = a := by
  simp [FungibleToken.insertAccount, FungibleToken.balance]

/-- Inserting under one key leaves every other balance unchanged. -/
theorem balance_insertAccount_ne (s : FungibleToken) (o o2 : Owner) (a : Amount)
    (h : o2 ≠ o) : (s.insertAccount o a).balance o2 = s.balance o2 := by
  simp [FungibleToken.insertAccount, FungibleToken.balance, h]

/-- A credit to one owner leaves every other balance unchanged. -/
theorem credit_balance_ne (s : FungibleToken) (o o2 : Owner) (a : Amount)
    (hne : o2 ≠ o) : (s.credit o a).balance o2 = s.balance o2 :=
  balance_insertAccount_ne s o o2 (Amount.saturatingAdd (s.balance o) a) hne

/-- A successful debit of one owner leaves every other balance unchanged. -/
theorem debit_balance_ne (s s1 : FungibleToken) (o o2 : Owner) (a : Amount)
    (h : s.debit o a = .ok s1) (hne : o2 ≠ o) :
    s1.balance o2 = s.balance o2 := by
  unfold FungibleToken.debit at h
  rcases h2 : Amount.trySub (s.balance o) a with _ | b
  · rw [h2] at h; cases h
  · rw [h2] at h
    cases h
    exact balance_insertAccount_ne s o o2 b hne

/-- Claim C4: credit is a total function (it always succeeds), it stores
exactly the saturating sum of the stored balance (zero if the key is
absent) and the amount under the owner, and — under the u128 representation
invariant that the stored balance is representable — the resulting balance
is never smaller than the balance before the call. -/
theorem credit_saturating (s : FungibleToken) (o : Owner) (a : Amount)
    (h : s.balance o ≤ amountMax) :
    (s.credit o a).accounts o = some (Amount.saturatingAdd (s.balance o) a) ∧
    s.balance o ≤ (s.credit o a).balance o := by
  constructor
  · simp [FungibleToken.credit, FungibleToken.insertAccount]
  · have hb : (s.credit o a).balance o = Amount.saturatingAdd (s.balance o) a :=
      balance_insertAccount_self s o (Amount.saturatingAdd (s.balance o) a)
    rw [hb]
    unfold Amount.saturatingAdd
    split
    · exact Nat.le_add_right _ _
    · exact h

/-- Witness for credit_saturating at a concrete ledger. -/
theorem credit_saturating_witness :
    (singleToken 1 100).balance 1 ≤ amountMax ∧
    (((singleToken 1 100).credit 1 5).accounts 1 =
      some (Amount.saturatingAdd ((singleToken 1 100).balance 1) 5) ∧
    (singleToken 1 100).balance 1 ≤ ((singleToken 1 100).credit 1 5).balance 1) :=
  ⟨by decide, credit_saturating (singleToken 1 100) 1 5 (by decide)⟩

/-- Claim C8: balance is a total function (it never fails); it returns the
stored amount when an entry is present and zero when the key is absent. -/
theorem balance_lookup (s : FungibleToken) (o : Owner) :
    (∀ a, s.accounts o = some a → s.balance o = a) ∧
    (s.accounts o = none → s.balance o = 0) := by
  constructor
  · intro a h; simp [FungibleToken.balance, h]
  · intro h; simp [FungibleToken.balance, h]

/-- Witness for balance_lookup: a present entry and an absent one. -/
theorem balance_lookup_witness :
    (singleToken 1 7).balance 1 = 7 ∧ (singleToken 1 7).balance 2 = 0 :=
  ⟨(balance_lookup (singleToken 1 7) 1).1 7 (by decide),
   (balance_lookup (singleToken 1 7) 2).2 (by decide)⟩

/-- Claim C5: an incoming Credit message is credited unconditionally and the
handler always succeeds with the default (message-free) result; the outcome
is independent of the message context, so in particular no authentication
check is performed. -/
theorem execute_message_credit_unconditional (s : FungibleToken)
    (ctx ctx2 : MessageContext) (a : Amount) (o : Owner) :
    execute_message ctx s (.Credit a o) =
      .ok (s.credit o a, ExecutionResult.default) ∧
    execute_message ctx s (.Credit a o) = execute_message ctx2 s (.Credit a o) :=
  ⟨rfl, rfl⟩

/-- Counterexample to claim C6: at a concrete context and state, a generic
application call is accepted with the default successful result instead of
being rejected with an error. -/
theorem application_call_not_rejected :
    handle_application_call ⟨0, none⟩ emptyToken () [] =
      .ok ApplicationCallResult.default ∧
    handle_application_call ⟨0, none⟩ emptyToken () [] ≠
      .error .SessionsNotSupported :=
  ⟨rfl, fun h => by simp [handle_application_call] at h⟩

/-- Claim C6 (amended): a session call is always rejected with the fixed
SessionsNotSupported error, but a generic application call is silently
accepted with the default successful result rather than rejected. -/
theorem unsupported_call_handling (ctx : CalleeContext) (s : FungibleToken)
    (st c : Unit) (fs : List SessionId) :
    handle_session_call ctx s st c fs = .error .SessionsNotSupported ∧
    handle_application_call ctx s c fs = .ok ApplicationCallResult.default :=
  ⟨rfl, rfl⟩

/-- Claim C1: debit fails with InsufficientBalance exactly when the amount
exceeds the stored balance, and in that case the enclosing Transfer
operation aborts with Error.InsufficientBalance.  In this embedding the
error branch of debit returns before any insert and an aborted operation
carries no state or messages, so the no-mutation and no-message parts of
the claim are structural on the error path. -/
theorem debit_insufficient_balance (s : FungibleToken) (o : Owner)
    (a : Amount) (cc : ChainId) (ctx : OperationContext) (tgt : Account) :
    (s.debit o a = .error .mk ↔ s.balance o < a) ∧
    (s.balance o < a → ctx.authenticated_signer = some o →
      execute_operation cc ctx s (.Transfer o a tgt) =
        .error (.InsufficientBalance .mk)) := by
  have hdeb : s.debit o a = .error .mk ↔ s.balance o < a := by
    by_cases h : a ≤ s.balance o
    · simp only [FungibleToken.debit, Amount.trySub, if_pos h]
      constructor
      · intro hcontra; cases hcontra
      · intro hlt; exact absurd h (Nat.not_le.mpr hlt)
    · have hlt : s.balance o < a := Nat.lt_of_not_le h
      simp [FungibleToken.debit, Amount.trySub, if_neg h, hlt]
  refine ⟨hdeb, fun hlt hsig => ?_⟩
  have herr : s.debit o a = .error .mk := hdeb.mpr hlt
  simp [execute_operation, check_account_authentication, hsig, herr]

/-- Witness for debit_insufficient_balance: the insufficient-funds scenario
of the spec, an owner with balance 100 attempting to transfer 101. -/
theorem debit_insufficient_balance_witness :
    ((singleToken 1 100).debit 1 101 = .error .mk ↔
      (singleToken 1 100).balance 1 < 101) ∧
    execute_operation 0 ⟨0, some 1, 0, 0⟩ (singleToken 1 100)
      (.Transfer 1 101 ⟨0, 2⟩) = .error (.InsufficientBalance .mk) :=
  ⟨(debit_insufficient_balance (singleToken 1 100) 1 101 0
      ⟨0, some 1, 0, 0⟩ ⟨0, 2⟩).1,
   (debit_insufficient_balance (singleToken 1 100) 1 101 0
      ⟨0, some 1, 0, 0⟩ ⟨0, 2⟩).2 (by decide) (by decide)⟩

/-- Claim C2: the authentication check succeeds exactly when an
authenticated signer is present and equals the claimed owner; a Transfer
whose signer is absent or different aborts with IncorrectAuthentication.
An aborted operation carries no state or messages in this embedding, so
every balance is left unchanged and nothing is emitted. -/
theorem transfer_authentication (auth : Option Owner) (o : Owner)
    (s : FungibleToken) (cc : ChainId) (ctx : OperationContext) (a : Amount)
    (tgt : Account) :
    (check_account_authentication auth o = .ok () ↔ auth = some o) ∧
    (ctx.authenticated_signer ≠ some o →
      execute_operation cc ctx s (.Transfer o a tgt) =
        .error .IncorrectAuthentication) := by
  constructor
  · constructor
    · intro h
      by_contra hne
      simp [check_account_authentication, hne] at h
    · intro h
      simp [check_account_authentication, h]
  · intro h
    simp [execute_operation, check_account_authentication, h]

/-- Witness for transfer_authentication: a signer different from the
claimed owner is rejected. -/
theorem transfer_authentication_witness :
    (check_account_authentication (some 5) 1 = .ok () ↔ some 5 = some 1) ∧
    execute_operation 0 ⟨0, some 5, 0, 0⟩ (singleToken 1 100)
      (.Transfer 1 10 ⟨0, 2⟩) = .error .IncorrectAuthentication :=
  ⟨(transfer_authentication (some 5) 1 (singleToken 1 100) 0
      ⟨0, some 5, 0, 0⟩ 10 ⟨0, 2⟩).1,
   (transfer_authentication (some 5) 1 (singleToken 1 100) 0
      ⟨0, some 5, 0, 0⟩ 10 ⟨0, 2⟩).2 (by decide)⟩

/-- Claim C3: once authentication and the debit succeed, a Transfer whose
target chain is the executing chain credits the target owner locally and
emits no message, while a Transfer to a different chain leaves the local
ledger at the debited state and emits exactly one Credit message addressed
to the target chain. -/
theorem transfer_local_or_remote (s s1 : FungibleToken) (cc : ChainId)
    (ctx : OperationContext) (o : Owner) (a : Amount) (tgt : Account)
    (hauth : ctx.authenticated_signer = some o)
    (hdeb : s.debit o a = .ok s1) :
    (tgt.chain_id = cc →
      execute_operation cc ctx s (.Transfer o a tgt) =
        .ok (s1.credit tgt.owner a, ExecutionResult.default)) ∧
    (tgt.chain_id ≠ cc →
      execute_operation cc ctx s (.Transfer o a tgt) =
        .ok (s1, ⟨[(tgt.chain_id, .Credit a tgt.owner)]⟩)) := by
  constructor <;> intro h <;>
    simp [execute_operation, check_account_authentication, hauth, hdeb,
      finish_transfer_to_account, h, ExecutionResult.default,
      ExecutionResult.with_message]

/-- Concrete source ledger for the transfer_local_or_remote witness. -/
def c3s : FungibleToken := singleToken 1 100

/-- The ledger after debiting 30 from owner 1 in c3s. -/
def c3s1 : FungibleToken := c3s.insertAccount 1 70

/-- Witness for transfer_local_or_remote: one local and one remote
transfer from a concrete ledger. -/
theorem transfer_local_or_remote_witness :
    execute_operation 7 ⟨7, some 1, 0, 0⟩ c3s (.Transfer 1 30 ⟨7, 2⟩) =
      .ok (c3s1.credit 2 30, ExecutionResult.default) ∧
    execute_operation 7 ⟨7, some 1, 0, 0⟩ c3s (.Transfer 1 30 ⟨8, 2⟩) =
      .ok (c3s1, ⟨[(8, .Credit 30 2)]⟩) :=
  ⟨(transfer_local_or_remote c3s c3s1 7 ⟨7, some 1, 0, 0⟩ 1 30 ⟨7, 2⟩
      rfl rfl).1 rfl,
   (transfer_local_or_remote c3s c3s1 7 ⟨7, some 1, 0, 0⟩ 1 30 ⟨8, 2⟩
      rfl rfl).2 (by decide)⟩

/-- Claim C9: at instantiation, a present authenticated signer receives the
initial amount (overwriting any prior entry for that signer), and an absent
signer leaves the ledger untouched while instantiation still succeeds. -/
theorem instantiate_signer_cases (s : FungibleToken) (ctx : OperationContext)
    (arg : Amount) :
    (∀ o, ctx.authenticated_signer = some o →
      instantiate ctx arg s =
        .ok (s.init_accounts o arg, ExecutionResult.default) ∧
      (s.init_accounts o arg).balance o = arg) ∧
    (ctx.authenticated_signer = none →
      instantiate ctx arg s = .ok (s, ExecutionResult.default)) := by
  constructor
  · intro o h
    refine ⟨by simp [instantiate, h], ?_⟩
    exact balance_insertAccount_self s o arg
  · intro h
    simp [instantiate, h]

/-- Witness for instantiate_signer_cases: a signer whose prior balance 9 is
overwritten to 42, and an instantiation without a signer. -/
theorem instantiate_signer_cases_witness :
    (instantiate ⟨0, some 3, 0, 0⟩ 42 (singleToken 3 9) =
       .ok ((singleToken 3 9).init_accounts 3 42, ExecutionResult.default) ∧
     ((singleToken 3 9).init_accounts 3 42).balance 3 = 42) ∧
    instantiate ⟨0, none, 0, 0⟩ 42 emptyToken =
      .ok (emptyToken, ExecutionResult.default) :=
  ⟨(instantiate_signer_cases (singleToken 3 9) ⟨0, some 3, 0, 0⟩ 42).1 3 rfl,
   (instantiate_signer_cases emptyToken ⟨0, none, 0, 0⟩ 42).2 rfl⟩

/-- Claim C10: a successful Transfer changes at most the debited owner and,
only when the destination chain is the executing chain, the credited target
owner; a Credit message changes at most the credited owner.  Error paths
abort without carrying a state in this embedding, so they change nothing. -/
theorem transfer_frame (s s2 : FungibleToken) (cc : ChainId)
    (ctx : OperationContext) (o : Owner) (a : Amount) (tgt : Account)
    (r : ExecutionResult) (o2 : Owner) :
    (execute_operation cc ctx s (.Transfer o a tgt) = .ok (s2, r) →
      o2 ≠ o → (tgt.chain_id = cc → o2 ≠ tgt.owner) →
      s2.balance o2 = s.balance o2) ∧
    (∀ mctx : MessageContext,
      execute_message mctx s (.Credit a o) = .ok (s2, r) →
      o2 ≠ o → s2.balance o2 = s.balance o2) := by
  constructor
  · intro hrun hne htgt
    by_cases hauth : ctx.authenticated_signer = some o
    · rcases hdeb : s.debit o a with e | s1
      · simp [execute_operation, check_account_authentication, hauth,
          hdeb] at hrun
      · have hstep : s1.balance o2 = s.balance o2 :=
          debit_balance_ne s s1 o o2 a hdeb hne
        by_cases hloc : tgt.chain_id = cc
        · simp [execute_operation, check_account_authentication, hauth,
            hdeb, finish_transfer_to_account, hloc] at hrun
          rw [← hrun.1, credit_balance_ne s1 tgt.owner o2 a (htgt hloc)]
          exact hstep
        · simp [execute_operation, check_account_authentication, hauth,
            hdeb, finish_transfer_to_account, hloc] at hrun
          rw [← hrun.1]
          exact hstep
    · simp [execute_operation, check_account_authentication, hauth] at hrun
  · intro mctx hrun hne
    simp [execute_message] at hrun
    rw [← hrun.1]
    exact credit_balance_ne s o o2 a hne

/-- Concrete successful local transfer for the transfer_frame witness. -/
def c10run : Except Error (FungibleToken × ExecutionResult) :=
  execute_operation 0 ⟨0, some 1, 0, 0⟩ (singleToken 1 100)
    (.Transfer 1 30 ⟨0, 2⟩)

/-- Concrete Credit message execution for the transfer_frame witness. -/
def c10msg : Except Error (FungibleToken × ExecutionResult) :=
  execute_message ⟨0, none⟩ (singleToken 1 100) (.Credit 30 2)

/-- Witness for transfer_frame: after a concrete local transfer from owner
1 to owner 2 and a concrete credit of owner 2, the balance of the
uninvolved owner 3 is unchanged. -/
theorem transfer_frame_witness :
    (okState c10run).balance 3 = (singleToken 1 100).balance 3 ∧
    (okState c10msg).balance 3 = (singleToken 1 100).balance 3 :=
  ⟨(transfer_frame (singleToken 1 100) (okState c10run) 0 ⟨0, some 1, 0, 0⟩
      1 30 ⟨0, 2⟩ ⟨okMessages c10run⟩ 3).1 rfl (by decide) (by decide),
   (transfer_frame (singleToken 1 100) (okState c10msg) 0 ⟨0, some 1, 0, 0⟩
      2 30 ⟨0, 2⟩ ⟨okMessages c10msg⟩ 3).2 ⟨0, none⟩ rfl (by decide)⟩

/-- Operation context of chain A in the cross-chain scenario: chain 10,
signed by owner 1. -/
def c7ctxA : OperationContext := ⟨10, some 1, 0, 0⟩

/-- Chain A state after instantiating with 1000000 for the signer, owner 1. -/
def c7sA0 : FungibleToken := okState (instantiate c7ctxA 1000000 emptyToken)

/-- Chain A executes the transfer of 50000 from owner 1 to owner 2 on
chain 20. -/
def c7runA : Except Error (FungibleToken × ExecutionResult) :=
  execute_operation 10 c7ctxA c7sA0 (.Transfer 1 50000 ⟨20, 2⟩)

/-- Chain A state after the transfer block. -/
def c7sA1 : FungibleToken := okState c7runA

/-- Chain B state before the Credit message is delivered. -/
def c7sB0 : FungibleToken := emptyToken

/-- Chain B processes the delivered Credit message. -/
def c7runB : Except Error (FungibleToken × ExecutionResult) :=
  execute_message ⟨20, none⟩ c7sB0 (.Credit 50000 2)

/-- Chain B state after processing the Credit message. -/
def c7sB1 : FungibleToken := okState c7runB

/-- Claim C7: in the two-chain scenario (chain A = 10 holds owner 1 with
1000000; owner 1 transfers 50000 to owner 2 on chain B = 20), after the
source block chain A shows 950000 for owner 1, chain B still shows 0 for
owner 2, and exactly one Credit message for 50000 is in flight to chain B;
after delivery chain B shows 50000 while chain A is untouched (its state is
the same c7sA1 value); the balances plus the in-flight amount sum to
1000000 before delivery, and the balances alone do after. -/
theorem cross_chain_conservation_scenario :
    c7sA1.balance 1 = 950000 ∧
    c7sB0.balance 2 = 0 ∧
    okMessages c7runA = [(20, Message.Credit 50000 2)] ∧
    c7sB1.balance 2 = 50000 ∧
    c7sA1.balance 1 + c7sB0.balance 2 + 50000 = 1000000 ∧
    c7sA1.balance 1 + c7sB1.balance 2 = 1000000 := by
  refine ⟨by decide, by decide, by decide, by decide, by decide, by decide⟩

end Fungible
